import Mathlib

/-!
Verification of the Andor AMH200-FOS shutter adapter (AndorAMH.cpp /
AndorAMH.h) against its natural-language specification.  The adapter's
command/response protocol, state updates and busy timing are embedded as
executable Lean definitions.  Times are rationals counting microseconds
(the MMTime unit); serial replies are strings with the terminator already
stripped, exactly as GetSerialAnswer delivers them.
-/

namespace AndorAMH

/-- Success return code of the hosting device framework (DEVICE_OK = 0 in
MMDeviceConstants.h). -/
def DEVICE_OK : Int := 0

/-- Framework return code rejecting a property value outside the limits
declared with SetPropertyLimits (DEVICE_INVALID_PROPERTY_VALUE = 3 in
MMDeviceConstants.h); this is the out-of-range rejection the spec names. -/
def DEVICE_INVALID_PROPERTY_VALUE : Int := 3

/-- Framework return code for an unsupported command
(DEVICE_UNSUPPORTED_COMMAND = 11 in MMDeviceConstants.h). -/
def DEVICE_UNSUPPORTED_COMMAND : Int := 11

/-- Error code from AndorAMH.h line 34. -/
def ERR_PORT_CHANGE_FORBIDDEN : Int := 10004

/-- Error code from AndorAMH.h line 35.  The constructor registers the text
"Unrecognised answer received from the device" for this code. -/
def ERR_UNRECOGNIZED_ANSWER : Int := 10009

/-- Fixed offset added to device-reported error codes, AndorAMH.h line 38. -/
def ERR_OFFSET : Int := 10100

/-- Controller state: the member variables of class AndorAMH (AndorAMH.h
lines 63-69) together with the settle delay held by the framework base
class (EnableDelay / GetDelayMs / SetDelayMs).  changedTime is the MMTime
changedTime_ in microseconds; delayMs is GetDelayMs() in milliseconds. -/
structure State where
  initialized : Bool
  port : String
  changedTime : ℚ
  intensity : Int
  curState : Bool
  delayMs : ℚ

/-- Constructor member initializers, AndorAMH.cpp lines 68-70:
initialized_(false), changedTime_(0.0), intensity_(1), curState_(false),
port_("Andor-AMH200-FOS").  The delay member lives in the framework base
class and is not set in src; modelled from the spec: delay defaults to 0. -/
def construct : State :=
  { initialized := false
    port := "Andor-AMH200-FOS"
    changedTime := 0
    intensity := 1
    curState := false
    delayMs := 0 }

/-- One round-trip's worth of transport collaborator outcomes: the return
codes of PurgeComPort, SendSerialCommand and GetSerialAnswer, and the
answer line GetSerialAnswer produced (terminator stripped).  A return code
different from DEVICE_OK is a transport failure. -/
structure Transport where
  purgeRet : Int
  sendRet : Int
  recvRet : Int
  answer : String

/-- Result of one command cycle: the controller state afterwards, the
return code, and the command string handed to SendSerialCommand (none if
the cycle aborted before sending). -/
structure CycleResult where
  st : State
  ret : Int
  sent : Option String

/-- Command framing from AndorAMH.cpp lines 206-207:
command << "LIGHT," << (state ? intensity_ : 0). -/
def encodeCommand (state : Bool) (intensity : Int) : String :=
  "LIGHT," ++ toString (if state then intensity else 0)

/-- Digit-accumulation loop of C atoi: consume leading decimal digits,
stop at the first non-digit. -/
def atoiLoop : List Char → Int → Int
  | [], acc => acc
  | c :: cs, acc =>
      if c.isDigit then atoiLoop cs (acc * 10 + ((c.toNat : Int) - 48)) else acc

/-- Whitespace recognised by C atoi (the isspace set in the C locale). -/
def isSpaceChar (c : Char) : Bool :=
  c == ' ' || c == '\t' || c == '\n' || c == '\x0b' || c == '\x0c' || c == '\r'

/-- Sign handling of C atoi after whitespace skipping: optional '-' or '+',
then digits; a string with no leading digits yields 0. -/
def atoiSigned : List Char → Int
  | [] => 0
  | c :: rest =>
      if c = '-' then - atoiLoop rest 0
      else if c = '+' then atoiLoop rest 0
      else atoiLoop (c :: rest) 0

/-- Model of C atoi as used at AndorAMH.cpp line 229 (mathematical value,
no machine-int overflow): skip leading whitespace, read an optional sign
and the longest digit prefix, 0 when no digits are present. -/
def atoi (l : List Char) : Int :=
  atoiSigned (l.dropWhile isSpaceChar)

/-- Reply classification of AndorAMH.cpp lines 223-235, applied to the
answer string: a reply whose first character is 'R' returns DEVICE_OK; a
reply whose first character is 'E' with length > 2 returns ERR_OFFSET plus
atoi of the text from index 2; every other reply falls through to the
final return DEVICE_OK at line 235. -/
def decodeRet (answer : String) : Int :=
  if answer.data.take 1 = ['R'] then DEVICE_OK
  else if answer.data.take 1 = ['E'] ∧ 2 < answer.data.length then
    ERR_OFFSET + atoi (answer.data.drop 2)
  else DEVICE_OK

/-- SetShutterPosition, AndorAMH.cpp lines 198-236: purge (early return on
failure), build the command, send it (early return on failure), await the
answer (early return on failure), then refresh changedTime_ to now and
classify the reply with decodeRet.  Only changedTime is ever written; the
cached curState_ is not touched here. -/
def SetShutterPosition (state : Bool) (s : State) (tr : Transport) (now : ℚ) : CycleResult :=
  if tr.purgeRet ≠ DEVICE_OK then ⟨s, tr.purgeRet, none⟩
  else if tr.sendRet ≠ DEVICE_OK then ⟨s, tr.sendRet, some (encodeCommand state s.intensity)⟩
  else if tr.recvRet ≠ DEVICE_OK then ⟨s, tr.recvRet, some (encodeCommand state s.intensity)⟩
  else ⟨{ s with changedTime := now }, decodeRet tr.answer, some (encodeCommand state s.intensity)⟩

/-- Busy, AndorAMH.cpp lines 158-166: interval = now - changedTime_;
delay = MMTime(GetDelayMs() * 1000.0) microseconds; return interval < delay.
It takes no transport argument: the embedding is a pure function of the
state and the current time, as the source performs no I/O here. -/
def Busy (s : State) (now : ℚ) : Bool :=
  if now - s.changedTime < s.delayMs * 1000 then true else false

/-- Fire, AndorAMH.cpp lines 190-193: timed exposure is unsupported; the
state is untouched and DEVICE_UNSUPPORTED_COMMAND is returned. -/
def Fire (s : State) (_deltaT : ℚ) : State × Int :=
  (s, DEVICE_UNSUPPORTED_COMMAND)

/-- Framework property-action phases (MM::BeforeGet and MM::AfterSet). -/
inductive MMAction
  | BeforeGet
  | AfterSet

/-- OnState, AndorAMH.cpp lines 242-259.  BeforeGet serves the cached
property value and touches nothing.  AfterSet reads the requested position
pos, assigns curState_ := (pos == 0 ? false : true) FIRST, and only then
calls SetShutterPosition with that new value; no branch reverts curState_
when the command fails. -/
def OnState (s : State) (pos : Int) (eAct : MMAction) (tr : Transport) (now : ℚ) : CycleResult :=
  match eAct with
  | .BeforeGet => ⟨s, DEVICE_OK, none⟩
  | .AfterSet =>
      let s1 : State := { s with curState := if pos = 0 then false else true }
      SetShutterPosition s1.curState s1 tr now

/-- SetOpen, AndorAMH.cpp lines 168-176: writes the State property to 1 or
0, which the framework routes to OnState with MM::AfterSet. -/
def SetOpen (s : State) (openFlag : Bool) (tr : Transport) (now : ℚ) : CycleResult :=
  OnState s (if openFlag then 1 else 0) .AfterSet tr now

/-- GetOpen, AndorAMH.cpp lines 178-188: reads the cached State property
(OnState's BeforeGet leaves the cached value in place) and maps "1" to
true.  The adapter keeps that cached value in sync with curState_ (SetOpen
writes 0/1 and OnState stores curState_ := pos not equal to 0), so the
reported open flag is curState_. -/
def GetOpen (s : State) : Bool :=
  s.curState

/-- Result of a port property action: the state afterwards, the property's
displayed value afterwards, and the return code. -/
structure PropResult where
  st : State
  propVal : String
  ret : Int

/-- OnPort, AndorAMH.cpp lines 261-280.  BeforeGet writes port_ into the
property.  AfterSet: when initialized_, revert the displayed value to
port_ and return ERR_PORT_CHANGE_FORBIDDEN without storing anything;
otherwise store the requested value into port_. -/
def OnPort (s : State) (propVal : String) (eAct : MMAction) : PropResult :=
  match eAct with
  | .BeforeGet => ⟨s, s.port, DEVICE_OK⟩
  | .AfterSet =>
      if s.initialized then ⟨s, s.port, ERR_PORT_CHANGE_FORBIDDEN⟩
      else ⟨{ s with port := propVal }, propVal, DEVICE_OK⟩

/-- OnIntensity, AndorAMH.cpp lines 298-312.  AfterSet stores the new
level into intensity_ and, when the shutter is currently open, immediately
re-issues the command so the light follows. -/
def OnIntensity (s : State) (level : Int) (eAct : MMAction) (tr : Transport) (now : ℚ) : CycleResult :=
  match eAct with
  | .BeforeGet => ⟨s, DEVICE_OK, none⟩
  | .AfterSet =>
      let s1 : State := { s with intensity := level }
      if s1.curState then SetShutterPosition s1.curState s1 tr now
      else ⟨s1, DEVICE_OK, none⟩

/-- Modelled from the spec: the framework's SetProperty path for the
Intensity property.  Initialize (AndorAMH.cpp line 127) declares
SetPropertyLimits("Intensity", 1, 100); the property plumbing that
enforces those limits lives in the hosting framework, outside src, and the
spec states that an out-of-range level is rejected before any I/O and
before the action handler runs.  An in-range level is forwarded to
OnIntensity with MM::AfterSet. -/
def setIntensityProperty (s : State) (level : Int) (tr : Transport) (now : ℚ) : CycleResult :=
  if level < 1 ∨ 100 < level then ⟨s, DEVICE_INVALID_PROPERTY_VALUE, none⟩
  else OnIntensity s level .AfterSet tr now

/-- Decimal value of a digit string (Horner evaluation over the integers). -/
def decValue (l : List Char) : Int :=
  l.foldl (fun a c => a * 10 + ((c.toNat : Int) - 48)) 0

/-- Formalisation of the phrase "the text parses as a decimal integer":
an optional leading minus sign followed by a nonempty run of decimal
digits, whose value is the usual decimal reading. -/
def parsesAsInt (l : List Char) : Option Int :=
  match l with
  | [] => none
  | c :: rest =>
      if c = '-' then
        if rest ≠ [] ∧ rest.all Char.isDigit = true then some (- decValue rest) else none
      else if (c :: rest).all Char.isDigit = true then some (decValue (c :: rest)) else none

theorem atoiLoop_eq_foldl (l : List Char) :
    ∀ acc : Int, l.all Char.isDigit = true →
      atoiLoop l acc = List.foldl (fun a c => a * 10 + ((c.toNat : Int) - 48)) acc l := by
  induction l with
  | nil => intro acc _; rfl
  | cons c cs ih =>
      intro acc h
      rw [List.all_cons, Bool.and_eq_true] at h
      unfold atoiLoop
      rw [if_pos h.1, List.foldl_cons]
      exact ih _ h.2

theorem not_space_of_digit (c : Char) (h : c.isDigit = true) : isSpaceChar c = false := by
  cases hs : isSpaceChar c with
  | false => rfl
  | true =>
      exfalso
      unfold isSpaceChar at hs
      simp only [Bool.or_eq_true, beq_iff_eq] at hs
      rcases hs with ((((h1 | h1) | h1) | h1) | h1) | h1 <;> subst h1 <;>
        exact absurd h (by decide)

theorem dropWhile_not_space (c : Char) (rest : List Char) (h : isSpaceChar c = false) :
    List.dropWhile isSpaceChar (c :: rest) = c :: rest := by
  simp [List.dropWhile, h]

/-- On any string the claim recognises as a decimal integer, the embedded
C atoi computes exactly that integer. -/
theorem atoi_eq_of_parsesAsInt (l : List Char) (n : Int)
    (h : parsesAsInt l = some n) : atoi l = n := by
  cases l with
  | nil => simp [parsesAsInt] at h
  | cons c rest =>
      simp only [parsesAsInt] at h
      by_cases hc : c = '-'
      · subst hc
        rw [if_pos rfl] at h
        by_cases hd : rest ≠ [] ∧ rest.all Char.isDigit = true
        · rw [if_pos hd] at h
          injection h with h
          unfold atoi
          rw [dropWhile_not_space _ _ (by decide)]
          simp only [atoiSigned]
          rw [if_pos trivial, atoiLoop_eq_foldl rest 0 hd.2]
          exact h
        · rw [if_neg hd] at h
          simp at h
      · rw [if_neg hc] at h
        by_cases hd : (c :: rest).all Char.isDigit = true
        · rw [if_pos hd] at h
          injection h with h
          have hcd : c.isDigit = true := by
            have h2 := hd
            rw [List.all_cons, Bool.and_eq_true] at h2
            exact h2.1
          have hplus : ¬ c = '+' := by
            intro hq
            subst hq
            exact absurd hcd (by decide)
          unfold atoi
          rw [dropWhile_not_space _ _ (not_space_of_digit c hcd)]
          simp only [atoiSigned]
          rw [if_neg hc, if_neg hplus, atoiLoop_eq_foldl (c :: rest) 0 hd]
          exact h
        · rw [if_neg hd] at h
          simp at h

/-- A command cycle never writes the cached open flag: SetShutterPosition
touches only changedTime_. -/
theorem setShutterPosition_curState (state : Bool) (s : State) (tr : Transport) (now : ℚ) :
    (SetShutterPosition state s tr now).st.curState = s.curState := by
  unfold SetShutterPosition
  split
  · rfl
  · split
    · rfl
    · split <;> rfl

/-- Once the purge succeeds, the string handed to SendSerialCommand is
exactly the encoded command for the requested state and stored intensity. -/
theorem setShutterPosition_sent (state : Bool) (s : State) (tr : Transport) (now : ℚ)
    (hp : tr.purgeRet = DEVICE_OK) :
    (SetShutterPosition state s tr now).sent = some (encodeCommand state s.intensity) := by
  unfold SetShutterPosition
  rw [if_neg (by simp [hp])]
  by_cases hs : tr.sendRet = DEVICE_OK
  · rw [if_neg (by simp [hs])]
    by_cases hr : tr.recvRet = DEVICE_OK
    · rw [if_neg (by simp [hr])]
    · rw [if_pos hr]
  · rw [if_pos hs]

/-- When the whole transport round-trip succeeds, the cycle's return code
is the reply classification of the answer string. -/
theorem setShutterPosition_ret (state : Bool) (s : State) (tr : Transport) (now : ℚ)
    (hp : tr.purgeRet = DEVICE_OK) (hs : tr.sendRet = DEVICE_OK) (hr : tr.recvRet = DEVICE_OK) :
    (SetShutterPosition state s tr now).ret = decodeRet tr.answer := by
  unfold SetShutterPosition
  rw [if_neg (by simp [hp]), if_neg (by simp [hs]), if_neg (by simp [hr])]

/-- Classification of a device-error reply: first character 'E', length
greater than 2, and a decimal error code starting at index 2. -/
theorem decodeRet_deviceError (answer : String) (n : Int)
    (hE : answer.data.take 1 = ['E']) (hlen : 2 < answer.data.length)
    (hn : parsesAsInt (answer.data.drop 2) = some n) :
    decodeRet answer = 10100 + n := by
  unfold decodeRet
  rw [hE, if_neg (by decide), if_pos ⟨rfl, hlen⟩, atoi_eq_of_parsesAsInt _ n hn]
  rfl

/-- Claim C1 (code-bug evidence): at the concrete malformed replies
"X,5", "" and "E" — with purge, send and receive all succeeding —
SetShutterPosition returns DEVICE_OK, i.e. success, and DEVICE_OK is not
ERR_UNRECOGNIZED_ANSWER: lines 223-235 fall through to `return DEVICE_OK`
instead of returning the UnrecognizedAnswer error the claim states, even
though the constructor registers an error text for that code. -/
theorem malformed_reply_returns_device_ok :
    (SetShutterPosition true construct ⟨DEVICE_OK, DEVICE_OK, DEVICE_OK, "X,5"⟩ 0).ret = DEVICE_OK ∧
    (SetShutterPosition true construct ⟨DEVICE_OK, DEVICE_OK, DEVICE_OK, ""⟩ 0).ret = DEVICE_OK ∧
    (SetShutterPosition true construct ⟨DEVICE_OK, DEVICE_OK, DEVICE_OK, "E"⟩ 0).ret = DEVICE_OK ∧
    DEVICE_OK ≠ ERR_UNRECOGNIZED_ANSWER := by
  refine ⟨by decide, by decide, by decide, by decide⟩

/-- Claim C2 (counterexample): starting from the freshly constructed,
closed controller, an open request answered by the device-error reply
"E,5" surfaces the Device(5) error yet flips the reported open flag to
true — the cached flag is not unchanged from its pre-call value, so the
claim as stated is false. -/
theorem deviceError_reply_changes_reported_open :
    GetOpen construct = false ∧
    (SetOpen construct true ⟨DEVICE_OK, DEVICE_OK, DEVICE_OK, "E,5"⟩ 7).ret = ERR_OFFSET + 5 ∧
    GetOpen (SetOpen construct true ⟨DEVICE_OK, DEVICE_OK, DEVICE_OK, "E,5"⟩ 7).st = true := by
  refine ⟨rfl, by decide, by decide⟩

/-- Claim C2 (amended): OnState assigns curState_ from the requested
position before issuing the command and never reverts it, so after a
command attempt whose reply is a DeviceError or Malformed reply (the
transport round-trip succeeded but the reply is not an Ack), the cached
open flag reported by GetOpen equals the newly requested state rather
than its pre-call value. -/
theorem open_flag_committed_before_reply (s : State) (pos : Int) (tr : Transport) (now : ℚ)
    (hp : tr.purgeRet = DEVICE_OK) (hs : tr.sendRet = DEVICE_OK) (hr : tr.recvRet = DEVICE_OK)
    (hnotAck : tr.answer.data.take 1 ≠ ['R']) :
    GetOpen (OnState s pos .AfterSet tr now).st = (if pos = 0 then false else true) := by
  simp only [GetOpen, OnState]
  rw [setShutterPosition_curState]

/-- Claim C2 (amended) witness at a concrete input: open request, reply
"E,5", resulting open flag true. -/
theorem open_flag_committed_before_reply_witness :
    GetOpen (OnState construct 1 .AfterSet ⟨DEVICE_OK, DEVICE_OK, DEVICE_OK, "E,5"⟩ 0).st = true :=
  (open_flag_committed_before_reply construct 1 ⟨DEVICE_OK, DEVICE_OK, DEVICE_OK, "E,5"⟩ 0
      rfl rfl rfl (by decide)).trans (by decide)

/-- Claim C3: for a stored intensity in [1,100], an open command sends
exactly "LIGHT," followed by the decimal rendering of the intensity, and
a close command sends exactly "LIGHT,0" regardless of the stored
intensity. -/
theorem open_close_wire_format (s : State) (tr : Transport) (now : ℚ)
    (h1 : 1 ≤ s.intensity) (h2 : s.intensity ≤ 100) (hp : tr.purgeRet = DEVICE_OK) :
    (SetShutterPosition true s tr now).sent = some ("LIGHT," ++ toString s.intensity) ∧
    (SetShutterPosition false s tr now).sent = some "LIGHT,0" := by
  refine ⟨?_, ?_⟩
  · rw [setShutterPosition_sent true s tr now hp]
    simp [encodeCommand]
  · rw [setShutterPosition_sent false s tr now hp]
    simp only [encodeCommand, if_neg Bool.false_ne_true]
    decide

/-- Claim C3 witness at intensity 42. -/
theorem open_close_wire_format_witness :
    (SetShutterPosition true { construct with intensity := 42 }
        ⟨DEVICE_OK, DEVICE_OK, DEVICE_OK, "R"⟩ 0).sent = some "LIGHT,42" ∧
    (SetShutterPosition false { construct with intensity := 42 }
        ⟨DEVICE_OK, DEVICE_OK, DEVICE_OK, "R"⟩ 0).sent = some "LIGHT,0" := by
  have h := open_close_wire_format { construct with intensity := 42 }
      ⟨DEVICE_OK, DEVICE_OK, DEVICE_OK, "R"⟩ 0 (by decide) (by decide) rfl
  exact ⟨h.1.trans (by decide), h.2⟩

/-- Claim C4: when purge, send and receive all succeed, changedTime_ is
refreshed to the current time whatever the reply says; when any of the
three transport steps fails, changedTime_ is left unchanged. -/
theorem changedTime_refresh (state : Bool) (s : State) (tr : Transport) (now : ℚ) :
    (tr.purgeRet = DEVICE_OK ∧ tr.sendRet = DEVICE_OK ∧ tr.recvRet = DEVICE_OK →
        (SetShutterPosition state s tr now).st.changedTime = now) ∧
    (¬(tr.purgeRet = DEVICE_OK ∧ tr.sendRet = DEVICE_OK ∧ tr.recvRet = DEVICE_OK) →
        (SetShutterPosition state s tr now).st.changedTime = s.changedTime) := by
  constructor
  · rintro ⟨hp, hs, hr⟩
    unfold SetShutterPosition
    rw [if_neg (by simp [hp]), if_neg (by simp [hs]), if_neg (by simp [hr])]
  · intro h
    unfold SetShutterPosition
    by_cases hp : tr.purgeRet = DEVICE_OK
    · rw [if_neg (by simp [hp])]
      by_cases hs : tr.sendRet = DEVICE_OK
      · rw [if_neg (by simp [hs])]
        by_cases hr : tr.recvRet = DEVICE_OK
        · exact absurd ⟨hp, hs, hr⟩ h
        · rw [if_pos hr]
      · rw [if_pos hs]
    · rw [if_pos hp]

/-- Claim C4 witness: timestamp refreshed to 5 on a successful round-trip
carrying an error reply; left at 3 when the purge fails. -/
theorem changedTime_refresh_witness :
    (SetShutterPosition true construct
        ⟨DEVICE_OK, DEVICE_OK, DEVICE_OK, "E,5"⟩ 5).st.changedTime = 5 ∧
    (SetShutterPosition true { construct with changedTime := 3 }
        ⟨1, DEVICE_OK, DEVICE_OK, "R"⟩ 5).st.changedTime = 3 :=
  ⟨(changedTime_refresh true construct ⟨DEVICE_OK, DEVICE_OK, DEVICE_OK, "E,5"⟩ 5).1
      ⟨rfl, rfl, rfl⟩,
   (changedTime_refresh true { construct with changedTime := 3 }
      ⟨1, DEVICE_OK, DEVICE_OK, "R"⟩ 5).2 (by decide)⟩

/-- Claim C5: Busy is true exactly when the elapsed time since the last
change is strictly less than the configured delay in milliseconds; the
embedding of Busy takes no transport input, matching the source, which
performs no I/O there. -/
theorem busy_iff_elapsed_lt_delay (s : State) (now : ℚ) :
    Busy s now = true ↔ (now - s.changedTime) / 1000 < s.delayMs := by
  unfold Busy
  rw [div_lt_iff₀ (by norm_num : (0:ℚ) < 1000)]
  by_cases h : now - s.changedTime < s.delayMs * 1000
  · simp [h]
  · simp [h]

/-- Claim C6: once initialized_ is set (Initialize, which runs the first
command cycle, has completed), a port change attempt returns
ERR_PORT_CHANGE_FORBIDDEN, leaves the stored port unchanged, reverts the
displayed value, and a subsequent read still reports the original port;
before initialization the change is stored. -/
theorem port_locked_after_init (s : State) (newPort : String) :
    (s.initialized = true →
        (OnPort s newPort .AfterSet).ret = ERR_PORT_CHANGE_FORBIDDEN ∧
        (OnPort s newPort .AfterSet).st = s ∧
        (OnPort s newPort .AfterSet).propVal = s.port ∧
        (OnPort (OnPort s newPort .AfterSet).st newPort .BeforeGet).propVal = s.port) ∧
    (s.initialized = false →
        (OnPort s newPort .AfterSet).ret = DEVICE_OK ∧
        (OnPort s newPort .AfterSet).st.port = newPort) := by
  constructor
  · intro h
    simp [OnPort, h]
  · intro h
    simp [OnPort, h]

/-- Claim C6 witness: a change is refused and the port kept once
initialized, and accepted before initialization. -/
theorem port_locked_after_init_witness :
    (OnPort { construct with initialized := true } "COM1" .AfterSet).ret
        = ERR_PORT_CHANGE_FORBIDDEN ∧
    (OnPort { construct with initialized := true } "COM1" .AfterSet).st.port
        = "Andor-AMH200-FOS" ∧
    (OnPort construct "COM1" .AfterSet).st.port = "COM1" := by
  have hA := (port_locked_after_init { construct with initialized := true } "COM1").1 rfl
  have hB := (port_locked_after_init construct "COM1").2 rfl
  exact ⟨hA.1, by rw [hA.2.1]; rfl, hB.2⟩

/-- Claim C7: a reply whose first character is 'E', of length greater
than 2, and whose text after index 2 parses as the decimal integer n,
makes the command cycle return the fixed offset 10100 (ERR_OFFSET) plus
n. -/
theorem deviceError_offset_code (state : Bool) (s : State) (tr : Transport) (now : ℚ) (n : Int)
    (hp : tr.purgeRet = DEVICE_OK) (hs : tr.sendRet = DEVICE_OK) (hr : tr.recvRet = DEVICE_OK)
    (hE : tr.answer.data.take 1 = ['E']) (hlen : 2 < tr.answer.data.length)
    (hn : parsesAsInt (tr.answer.data.drop 2) = some n) :
    (SetShutterPosition state s tr now).ret = 10100 + n :=
  (setShutterPosition_ret state s tr now hp hs hr).trans
    (decodeRet_deviceError tr.answer n hE hlen hn)

/-- Claim C7 witness: reply "E,12" surfaces error 10100 + 12. -/
theorem deviceError_offset_code_witness :
    (SetShutterPosition true construct
        ⟨DEVICE_OK, DEVICE_OK, DEVICE_OK, "E,12"⟩ 0).ret = 10100 + 12 :=
  deviceError_offset_code true construct ⟨DEVICE_OK, DEVICE_OK, DEVICE_OK, "E,12"⟩ 0 12
    rfl rfl rfl (by decide) (by decide) (by decide)

/-- Claim C8: an intensity level outside [1,100] is rejected by the
declared property limits with the out-of-range code, no state change and
no I/O. -/
theorem intensity_out_of_range_rejected (s : State) (tr : Transport) (now : ℚ) (level : Int)
    (h : level < 1 ∨ 100 < level) :
    (setIntensityProperty s level tr now).st = s ∧
    (setIntensityProperty s level tr now).ret = DEVICE_INVALID_PROPERTY_VALUE ∧
    (setIntensityProperty s level tr now).sent = none := by
  unfold setIntensityProperty
  rw [if_pos h]
  exact ⟨rfl, rfl, rfl⟩

/-- Claim C8 witness at the levels 0 and 101. -/
theorem intensity_out_of_range_rejected_witness :
    ((setIntensityProperty construct 0 ⟨DEVICE_OK, DEVICE_OK, DEVICE_OK, "R"⟩ 0).ret
        = DEVICE_INVALID_PROPERTY_VALUE ∧
      (setIntensityProperty construct 0 ⟨DEVICE_OK, DEVICE_OK, DEVICE_OK, "R"⟩ 0).st
        = construct) ∧
    ((setIntensityProperty construct 101 ⟨DEVICE_OK, DEVICE_OK, DEVICE_OK, "R"⟩ 0).ret
        = DEVICE_INVALID_PROPERTY_VALUE ∧
      (setIntensityProperty construct 101 ⟨DEVICE_OK, DEVICE_OK, DEVICE_OK, "R"⟩ 0).st
        = construct) := by
  have h0 := intensity_out_of_range_rejected construct
      ⟨DEVICE_OK, DEVICE_OK, DEVICE_OK, "R"⟩ 0 0 (by decide)
  have h1 := intensity_out_of_range_rejected construct
      ⟨DEVICE_OK, DEVICE_OK, DEVICE_OK, "R"⟩ 0 101 (by decide)
  exact ⟨⟨h0.2.1, h0.1⟩, ⟨h1.2.1, h1.1⟩⟩

/-- Claim C9 (counterexample): the constructor initializes intensity_ to
1, not 100 — the claimed default intensity = 100 is false at
construction. -/
theorem construct_intensity_not_100 :
    construct.intensity = 1 ∧ construct.intensity ≠ 100 :=
  ⟨rfl, by decide⟩

/-- Claim C9 (amended): at controller construction the defaults are
shutter closed (curState_ = false), intensity = 1, and delay = 0; the
value 100 is only the initial display value given to the Intensity
property created later in Initialize. -/
theorem construct_defaults :
    construct.curState = false ∧ construct.intensity = 1 ∧ construct.delayMs = 0 :=
  ⟨rfl, rfl, rfl⟩

/-- Claim C10: Fire returns DEVICE_UNSUPPORTED_COMMAND for every argument
and leaves the controller state untouched. -/
theorem fire_unsupported (s : State) (deltaT : ℚ) :
    Fire s deltaT = (s, DEVICE_UNSUPPORTED_COMMAND) :=
  rfl

end AndorAMH
